import Mathlib

/-!
# `res/constants.c`: the constant and window-size reporter

A shallow embedding of the one function of `res/constants.c`, `main`, and the
properties of the text it writes to standard output.

The program is straight-line C: fourteen `printf` calls on platform constants,
two `ioctl(fd, TIOCGWINSZ, &winsize)` queries whose result code, row count and
column count are printed, and a last `printf` of `sizeof(struct winsize)`.

What the platform headers provide (the values of the constants, the size of
the structure) and what the operating system does (the outcome of `ioctl`, the
bytes found in the uninitialised stack slot) are parameters of the model.
C values carry the range of their C type: `int` is 32-bit two's complement,
`unsigned int` 32 bits, `unsigned long` 64 bits, `unsigned short` 16 bits.
-/

namespace Constants

/-! ## C value types -/

/-- Values of the C type `int`. -/
abbrev CInt := { v : Int // -2147483648 ≤ v ∧ v ≤ 2147483647 }

/-- Values of the C type `unsigned int`. -/
abbrev CUInt := { v : Nat // v < 4294967296 }

/-- Values of the C type `unsigned long`. -/
abbrev CULong := { v : Nat // v < 18446744073709551616 }

/-- Values of the C type `unsigned short`. -/
abbrev CUShort := { v : Nat // v < 65536 }

/-- Integer promotion of an `unsigned short` passed through a variadic
argument list: every `unsigned short` value fits in `int`, so the value is
kept and the type becomes `int`. -/
def promote (x : CUShort) : CInt :=
  ⟨(x.val : Int), by
    have h := x.property
    constructor <;> omega⟩

/-- Modelled from the spec: the declaration of `struct winsize`, which lives in
the platform header `<sys/ioctl.h>` and not in the repository. The spec gives
it unsigned 16-bit rows and columns and two reserved pixel-dimension fields,
which are never printed. -/
structure Winsize where
  ws_row : CUShort
  ws_col : CUShort
  ws_xpixel : CUShort
  ws_ypixel : CUShort
deriving DecidableEq

/-- Modelled from the spec: the member sizes, in bytes and in declaration
order, of the `struct winsize` of `<sys/ioctl.h>`: two 16-bit row/column
fields and two reserved 16-bit fields. -/
def winsizeMembers : List Nat := [2, 2, 2, 2]

/-- Offset reached after laying out scalar members one after another, each
aligned to its own size. -/
def layoutEnd : Nat → List Nat → Nat
  | off, [] => off
  | off, m :: ms => layoutEnd ((off + (m - 1)) / m * m + m) ms

/-- The `sizeof` of a structure of scalar members: the members laid out in
order, each at the next multiple of its size, the total rounded up to the
largest member alignment. -/
def structSize (members : List Nat) : Nat :=
  let a := members.foldl max 1
  (layoutEnd 0 members + (a - 1)) / a * a

/-! ## `printf` -/

/-- An argument of a variadic call, after the default argument promotions. -/
inductive Arg where
  | int (v : CInt)
  | uint (v : CUInt)
  | ulong (v : CULong)

/-- Decimal digits of an unsigned value (`%u`, `%lu`). -/
def fmtUnsigned (n : Nat) : List Char := Nat.toDigits 10 n

/-- Signed decimal notation (`%d`): a minus sign before the digits of the
magnitude of a negative value, no sign otherwise. -/
def fmtSigned : Int → List Char
  | Int.ofNat n => fmtUnsigned n
  | Int.negSucc n => '-' :: fmtUnsigned (n + 1)

/-- The characters `printf` produces for a format and its arguments. Only the
conversions the program uses are interpreted: `%d` reads an `int`, `%u` an
`unsigned int`, `%lu` an `unsigned long`. A conversion with no argument, with
an argument of another type, or any other `%` directive has no defined
behaviour and yields `none`. -/
def printfAux : List Char → List Arg → Option (List Char)
  | [], _ => some []
  | '%' :: 'd' :: fmt, Arg.int v :: args =>
      (printfAux fmt args).map (fmtSigned v.val ++ ·)
  | '%' :: 'u' :: fmt, Arg.uint v :: args =>
      (printfAux fmt args).map (fmtUnsigned v.val ++ ·)
  | '%' :: 'l' :: 'u' :: fmt, Arg.ulong v :: args =>
      (printfAux fmt args).map (fmtUnsigned v.val ++ ·)
  | '%' :: _, _ => none
  | c :: fmt, args => (printfAux fmt args).map (c :: ·)

/-! ## The environment and the process -/

/-- What the platform and the operating system contribute to a run: the
fourteen header constants at the type their conversion specifier reads, the
size of `struct winsize`, and the `ioctl` system call. `ioctl os fd request
buf` returns the result code, the contents of the buffer after the call and
the state of the operating system after the call. -/
structure Env (σ : Type) where
  ISIG : CInt
  ICANON : CInt
  ECHO : CInt
  TCSAFLUSH : CInt
  IXON : CInt
  ICRNL : CInt
  IEXTEN : CInt
  OPOST : CInt
  VMIN : CInt
  VTIME : CInt
  TIOCGWINSZ : CULong
  IOC_IN : CUInt
  IOC_OUT : CUInt
  IOC_INOUT : CUInt
  sizeof_winsize : CULong
  ioctl : σ → Int → CULong → Winsize → CInt × Winsize × σ

/-- The state of the running process: the text written to standard output so
far, the stack-local `winsize`, the state of the operating system, and the
device-control requests issued so far, as (file descriptor, request) pairs in
the order of issue. -/
structure Proc (σ : Type) where
  stdout : String
  winsize : Winsize
  os : σ
  requests : List (Int × CULong)

/-- A statement of the program: run in a process state, it either has no
defined behaviour (`none`) or yields a value and the next process state. -/
def Stmt (σ : Type) (α : Type) : Type := Proc σ → Option (α × Proc σ)

/-- A statement that only yields a value. -/
@[noinline] def Stmt.pure {σ α : Type} (a : α) : Stmt σ α := fun p => some (a, p)

/-- Sequencing: the second statement runs in the state the first one leaves. -/
@[noinline] def Stmt.bind {σ α β : Type} (x : Stmt σ α) (f : α → Stmt σ β) : Stmt σ β :=
  fun p => match x p with
    | none => none
    | some (a, q) => f a q

instance {σ : Type} : Monad (Stmt σ) where
  pure := Stmt.pure
  bind := Stmt.bind

/-- The call `printf(fmt, args...)`: the formatted text is appended to
standard output. -/
def printf {σ : Type} (fmt : String) (args : List Arg) : Stmt σ Unit := fun p =>
  (printfAux fmt.data args).map fun cs => ((), { p with stdout := p.stdout ++ String.mk cs })

/-- The call `ioctl(fd, request, &winsize)`: the request is logged, the
operating system rewrites the structure and its own state, and the result
code is the value of the call. -/
def ioctl {σ : Type} (env : Env σ) (fd : Int) (request : CULong) : Stmt σ CInt := fun p =>
  let r := env.ioctl p.os fd request p.winsize
  some (r.1, { p with winsize := r.2.1, os := r.2.2, requests := p.requests ++ [(fd, request)] })

/-- Reading the local variable `winsize`. -/
def winsize {σ : Type} : Stmt σ Winsize := fun p => some (p.winsize, p)

/-- The function `main` of `res/constants.c`. Control reaches the closing
brace of `main`, which returns 0 to the host environment. -/
def main {σ : Type} (env : Env σ) (argc : Int) (argv : List String) : Stmt σ Int := do
  let _ := argc
  let _ := argv
  printf "ISIG=%d\n" [Arg.int env.ISIG]
  printf "ICANON=%d\n" [Arg.int env.ICANON]
  printf "ECHO=%d\n" [Arg.int env.ECHO]
  printf "TCSAFLUSH=%d\n" [Arg.int env.TCSAFLUSH]
  printf "IXON=%d\n" [Arg.int env.IXON]
  printf "ICRNL=%d\n" [Arg.int env.ICRNL]
  printf "IEXTEN=%d\n" [Arg.int env.IEXTEN]
  printf "OPOST=%d\n" [Arg.int env.OPOST]
  printf "VMIN=%d\n" [Arg.int env.VMIN]
  printf "VTIME=%d\n" [Arg.int env.VTIME]
  printf "TIOCGWINSZ=%lu\n" [Arg.ulong env.TIOCGWINSZ]
  printf "IOC_IN=%u\n" [Arg.uint env.IOC_IN]
  printf "IOC_OUT=%u\n" [Arg.uint env.IOC_OUT]
  printf "IOC_INOUT=%u\n" [Arg.uint env.IOC_INOUT]
  printf "%d\n" [Arg.int (← ioctl env 0 env.TIOCGWINSZ)]
  printf "%d\n" [Arg.int (promote (← winsize).ws_row)]
  printf "%d\n" [Arg.int (promote (← winsize).ws_col)]
  printf "%d\n" [Arg.int (← ioctl env 1 env.TIOCGWINSZ)]
  printf "%d\n" [Arg.int (promote (← winsize).ws_row)]
  printf "%d\n" [Arg.int (promote (← winsize).ws_col)]
  printf "sizeof winsize: %lu" [Arg.ulong env.sizeof_winsize]
  return 0

/-- The process state on entry to `main`: nothing written, no request issued,
the operating system in state `os`, and the variable `winsize`, declared
without an initialiser, holding whatever its stack slot `stack` contains. -/
def start {σ : Type} (stack : Winsize) (os : σ) : Proc σ :=
  { stdout := "", winsize := stack, os := os, requests := [] }

/-- A whole run of the program: `main` executed from the entry state. The
result is the exit status and the final process state. -/
def run {σ : Type} (env : Env σ) (argc : Int) (argv : List String)
    (stack : Winsize) (os : σ) : Option (Int × Proc σ) :=
  main env argc argv (start stack os)

/-! ## Vocabulary of the properties -/

/-- Outcome of the first query of a run, `ioctl(0, TIOCGWINSZ, &winsize)`:
result code, structure contents and operating-system state after the call. -/
def query0 {σ : Type} (env : Env σ) (stack : Winsize) (os : σ) : CInt × Winsize × σ :=
  env.ioctl os 0 env.TIOCGWINSZ stack

/-- Outcome of the second query of a run, `ioctl(1, TIOCGWINSZ, &winsize)`,
issued on the structure and in the state the first query left. -/
def query1 {σ : Type} (env : Env σ) (stack : Winsize) (os : σ) : CInt × Winsize × σ :=
  env.ioctl (query0 env stack os).2.2 1 env.TIOCGWINSZ (query0 env stack os).2.1

/-- The segments of a text between newline characters: a text with `n`
newlines has `n + 1` segments, the last one being what follows the last
newline. -/
def splitLines : List Char → List (List Char)
  | [] => [[]]
  | c :: cs =>
    if c = '\n' then [] :: splitLines cs
    else match splitLines cs with
      | [] => [[c]]
      | l :: ls => (c :: l) :: ls

/-- The lines of a text: its segments between newline characters. -/
def lines (s : String) : List String :=
  (splitLines s.data).map String.mk

/-- Line `k` of a text, counted from 1. -/
def line (k : Nat) (s : String) : Option String :=
  (lines s)[k - 1]?

/-- Text made of the given segments with one newline between consecutive
segments: the inverse of `splitLines`. -/
def joinLines : List (List Char) → List Char
  | [] => []
  | [l] => l
  | l :: l' :: ls => l ++ '\n' :: joinLines (l' :: ls)

/-! ## Sample environments -/

/-- A sample operating-system state: the window size of the terminal attached
to file descriptor 0 and to file descriptor 1, `none` for a stream that is
not a terminal. -/
structure Streams where
  fd0 : Option Winsize
  fd1 : Option Winsize
deriving DecidableEq

/-- The device-control call of the sample operating system: request 21523 on
a terminal succeeds with code 0 and fills the buffer with the window size;
every other call fails with code -1 and leaves the buffer as it was. The
state of the system never changes. -/
def Streams.ioctl (s : Streams) (fd : Int) (request : CULong) (buf : Winsize) :
    CInt × Winsize × Streams :=
  match (if request.val = 21523 then
      (if fd = 0 then s.fd0 else if fd = 1 then s.fd1 else none) else none) with
  | some w => (⟨0, by decide⟩, w, s)
  | none => (⟨-1, by decide⟩, buf, s)

/-- The constants of the Linux x86-64 headers, over the sample operating
system. -/
def linux : Env Streams where
  ISIG := ⟨1, by decide⟩
  ICANON := ⟨2, by decide⟩
  ECHO := ⟨8, by decide⟩
  TCSAFLUSH := ⟨2, by decide⟩
  IXON := ⟨1024, by decide⟩
  ICRNL := ⟨256, by decide⟩
  IEXTEN := ⟨32768, by decide⟩
  OPOST := ⟨1, by decide⟩
  VMIN := ⟨6, by decide⟩
  VTIME := ⟨5, by decide⟩
  TIOCGWINSZ := ⟨21523, by decide⟩
  IOC_IN := ⟨1073741824, by decide⟩
  IOC_OUT := ⟨2147483648, by decide⟩
  IOC_INOUT := ⟨3221225472, by decide⟩
  sizeof_winsize := ⟨8, by decide⟩
  ioctl := Streams.ioctl

/-- A window of 24 rows and 80 columns. -/
def ws24x80 : Winsize := ⟨⟨24, by decide⟩, ⟨80, by decide⟩, ⟨0, by decide⟩, ⟨0, by decide⟩⟩

/-- A window of 50 rows and 132 columns. -/
def ws50x132 : Winsize := ⟨⟨50, by decide⟩, ⟨132, by decide⟩, ⟨0, by decide⟩, ⟨0, by decide⟩⟩

/-- Stack residue: a slot that happens to hold 7 and 9 where the rows and
columns go. -/
def wsResidue : Winsize := ⟨⟨7, by decide⟩, ⟨9, by decide⟩, ⟨0, by decide⟩, ⟨0, by decide⟩⟩

/-- Both standard streams on one 24 x 80 terminal. -/
def bothTty : Streams := ⟨some ws24x80, some ws24x80⟩

/-- Both standard streams redirected to regular files. -/
def noTty : Streams := ⟨none, none⟩

/-- Standard input on a 24 x 80 terminal, standard output on a 50 x 132 one. -/
def twoTty : Streams := ⟨some ws24x80, some ws50x132⟩

/-- Standard input on a 24 x 80 terminal, standard output redirected. -/
def inTty : Streams := ⟨some ws24x80, none⟩


/-! ## Decimal notation and line structure -/

theorem digitChar_isDigit (d : Nat) (h : d < 10) : (Nat.digitChar d).isDigit = true := by
  interval_cases d <;> decide

theorem toDigitsCore_isDigit (fuel : Nat) : ∀ (n : Nat) (ds : List Char),
    (∀ c ∈ ds, c.isDigit = true) → ∀ c ∈ Nat.toDigitsCore 10 fuel n ds, c.isDigit = true := by
  induction fuel with
  | zero => intro n ds h c hc; exact h c (by simpa [Nat.toDigitsCore] using hc)
  | succ fuel ih =>
    intro n ds h c hc
    have hd : (Nat.digitChar (n % 10)).isDigit = true :=
      digitChar_isDigit _ (Nat.mod_lt _ (by decide))
    have hds : ∀ c ∈ Nat.digitChar (n % 10) :: ds, c.isDigit = true := by
      intro c hc
      rcases List.mem_cons.mp hc with rfl | hc
      · exact hd
      · exact h c hc
    simp only [Nat.toDigitsCore] at hc
    split at hc
    · exact hds c hc
    · exact ih _ _ hds c hc

theorem fmtUnsigned_isDigit (n : Nat) : ∀ c ∈ fmtUnsigned n, c.isDigit = true :=
  toDigitsCore_isDigit _ _ _ (by simp)

theorem newline_not_mem_fmtUnsigned (n : Nat) : '\n' ∉ fmtUnsigned n :=
  fun h => absurd (fmtUnsigned_isDigit n _ h) (by decide)

theorem minus_not_mem_fmtUnsigned (n : Nat) : '-' ∉ fmtUnsigned n :=
  fun h => absurd (fmtUnsigned_isDigit n _ h) (by decide)

theorem newline_not_mem_fmtSigned (v : Int) : '\n' ∉ fmtSigned v := by
  cases v with
  | ofNat n => exact newline_not_mem_fmtUnsigned n
  | negSucc n =>
    intro h
    rcases List.mem_cons.mp h with h | h
    · exact absurd h (by decide)
    · exact newline_not_mem_fmtUnsigned _ h

theorem minus_mem_fmtSigned_iff (v : Int) : '-' ∈ fmtSigned v ↔ v < 0 := by
  cases v with
  | ofNat n =>
    constructor
    · intro h; exact absurd h (minus_not_mem_fmtUnsigned n)
    · intro h; exact absurd h (by simp)
  | negSucc n =>
    constructor
    · intro _; exact Int.negSucc_lt_zero n
    · intro _; exact List.mem_cons_self _ _

theorem mk_fmtUnsigned (n : Nat) : String.mk (fmtUnsigned n) = toString n := rfl

theorem mk_fmtSigned (v : Int) : String.mk (fmtSigned v) = toString v := by
  cases v <;> rfl

theorem fmtSigned_natCast (n : Nat) : fmtSigned (n : Int) = fmtUnsigned n := rfl

theorem splitLines_of_not_mem : ∀ (l : List Char), '\n' ∉ l → splitLines l = [l]
  | [], _ => rfl
  | c :: cs, h => by
    have hc : c ≠ '\n' := fun e => h (e ▸ List.mem_cons_self _ _)
    have hcs : '\n' ∉ cs := fun e => h (List.mem_cons_of_mem _ e)
    simp [splitLines, hc, splitLines_of_not_mem cs hcs]

theorem splitLines_append_newline : ∀ (l r : List Char), '\n' ∉ l →
    splitLines (l ++ '\n' :: r) = l :: splitLines r
  | [], r, _ => by simp [splitLines]
  | c :: cs, r, h => by
    have hc : c ≠ '\n' := fun e => h (e ▸ List.mem_cons_self _ _)
    have hcs : '\n' ∉ cs := fun e => h (List.mem_cons_of_mem _ e)
    simp [splitLines, hc, splitLines_append_newline cs r hcs]

theorem splitLines_joinLines : ∀ (ls : List (List Char)), ls ≠ [] →
    (∀ l ∈ ls, '\n' ∉ l) → splitLines (joinLines ls) = ls
  | [], h, _ => absurd rfl h
  | [l], _, h => by
    simpa [joinLines] using splitLines_of_not_mem l (h l (List.mem_singleton_self l))
  | l :: l' :: ls, _, h => by
    have hl : '\n' ∉ l := h l (List.mem_cons_self _ _)
    have ih := splitLines_joinLines (l' :: ls) (by simp)
      (fun x hx => h x (List.mem_cons_of_mem _ hx))
    simp only [joinLines]
    rw [splitLines_append_newline _ _ hl, ih]


theorem promote_val (x : CUShort) : (promote x).val = (x.val : Int) := rfl

/-- The segments of the text one run writes, given the outcomes of its two
queries. -/
theorem run_eq {σ : Type} (env : Env σ) (argc : Int) (argv : List String)
    (stack : Winsize) (os : σ) :
    run env argc argv stack os = some (0,
      { stdout := String.mk (joinLines
          [ "ISIG=".data ++ fmtSigned env.ISIG.val,
            "ICANON=".data ++ fmtSigned env.ICANON.val,
            "ECHO=".data ++ fmtSigned env.ECHO.val,
            "TCSAFLUSH=".data ++ fmtSigned env.TCSAFLUSH.val,
            "IXON=".data ++ fmtSigned env.IXON.val,
            "ICRNL=".data ++ fmtSigned env.ICRNL.val,
            "IEXTEN=".data ++ fmtSigned env.IEXTEN.val,
            "OPOST=".data ++ fmtSigned env.OPOST.val,
            "VMIN=".data ++ fmtSigned env.VMIN.val,
            "VTIME=".data ++ fmtSigned env.VTIME.val,
            "TIOCGWINSZ=".data ++ fmtUnsigned env.TIOCGWINSZ.val,
            "IOC_IN=".data ++ fmtUnsigned env.IOC_IN.val,
            "IOC_OUT=".data ++ fmtUnsigned env.IOC_OUT.val,
            "IOC_INOUT=".data ++ fmtUnsigned env.IOC_INOUT.val,
            fmtSigned (query0 env stack os).1.val,
            fmtUnsigned (query0 env stack os).2.1.ws_row.val,
            fmtUnsigned (query0 env stack os).2.1.ws_col.val,
            fmtSigned (query1 env stack os).1.val,
            fmtUnsigned (query1 env stack os).2.1.ws_row.val,
            fmtUnsigned (query1 env stack os).2.1.ws_col.val,
            "sizeof winsize: ".data ++ fmtUnsigned env.sizeof_winsize.val ])
        winsize := (query1 env stack os).2.1
        os := (query1 env stack os).2.2
        requests := [(0, env.TIOCGWINSZ), (1, env.TIOCGWINSZ)] }) := by
  have h : ∃ s, run env argc argv stack os = some (0,
      { stdout := s
        winsize := (query1 env stack os).2.1
        os := (query1 env stack os).2.2
        requests := [(0, env.TIOCGWINSZ), (1, env.TIOCGWINSZ)] }) ∧ s = String.mk (joinLines
          [ "ISIG=".data ++ fmtSigned env.ISIG.val,
            "ICANON=".data ++ fmtSigned env.ICANON.val,
            "ECHO=".data ++ fmtSigned env.ECHO.val,
            "TCSAFLUSH=".data ++ fmtSigned env.TCSAFLUSH.val,
            "IXON=".data ++ fmtSigned env.IXON.val,
            "ICRNL=".data ++ fmtSigned env.ICRNL.val,
            "IEXTEN=".data ++ fmtSigned env.IEXTEN.val,
            "OPOST=".data ++ fmtSigned env.OPOST.val,
            "VMIN=".data ++ fmtSigned env.VMIN.val,
            "VTIME=".data ++ fmtSigned env.VTIME.val,
            "TIOCGWINSZ=".data ++ fmtUnsigned env.TIOCGWINSZ.val,
            "IOC_IN=".data ++ fmtUnsigned env.IOC_IN.val,
            "IOC_OUT=".data ++ fmtUnsigned env.IOC_OUT.val,
            "IOC_INOUT=".data ++ fmtUnsigned env.IOC_INOUT.val,
            fmtSigned (query0 env stack os).1.val,
            fmtUnsigned (query0 env stack os).2.1.ws_row.val,
            fmtUnsigned (query0 env stack os).2.1.ws_col.val,
            fmtSigned (query1 env stack os).1.val,
            fmtUnsigned (query1 env stack os).2.1.ws_row.val,
            fmtUnsigned (query1 env stack os).2.1.ws_col.val,
            "sizeof winsize: ".data ++ fmtUnsigned env.sizeof_winsize.val ]) := by
    refine ⟨_, rfl, ?_⟩
    apply String.ext
    simp only [String.data_append, List.append_assoc, List.cons_append, List.nil_append,
      List.append_nil, joinLines, start, query0, query1, promote_val, fmtSigned_natCast]
  obtain ⟨s, h1, h2⟩ := h
  rw [h1, h2]


theorem count_newline_joinLines : ∀ (ls : List (List Char)), ls ≠ [] →
    (∀ l ∈ ls, '\n' ∉ l) → (joinLines ls).count '\n' = ls.length - 1
  | [], h, _ => absurd rfl h
  | [l], _, h => by
    simpa [joinLines] using List.count_eq_zero.mpr (h l (List.mem_singleton_self l))
  | l :: l' :: ls, _, h => by
    have hl : l.count '\n' = 0 := List.count_eq_zero.mpr (h l (List.mem_cons_self _ _))
    have ih := count_newline_joinLines (l' :: ls) (by simp)
      (fun x hx => h x (List.mem_cons_of_mem _ hx))
    simp only [joinLines, List.count_append, List.count_cons_self, hl, ih]
    simp

/-- No segment of the report holds a newline character. -/
theorem report_no_newline {σ : Type} (env : Env σ) (stack : Winsize) (os : σ) :
    ∀ l ∈ ([ "ISIG=".data ++ fmtSigned env.ISIG.val,
          "ICANON=".data ++ fmtSigned env.ICANON.val,
          "ECHO=".data ++ fmtSigned env.ECHO.val,
          "TCSAFLUSH=".data ++ fmtSigned env.TCSAFLUSH.val,
          "IXON=".data ++ fmtSigned env.IXON.val,
          "ICRNL=".data ++ fmtSigned env.ICRNL.val,
          "IEXTEN=".data ++ fmtSigned env.IEXTEN.val,
          "OPOST=".data ++ fmtSigned env.OPOST.val,
          "VMIN=".data ++ fmtSigned env.VMIN.val,
          "VTIME=".data ++ fmtSigned env.VTIME.val,
          "TIOCGWINSZ=".data ++ fmtUnsigned env.TIOCGWINSZ.val,
          "IOC_IN=".data ++ fmtUnsigned env.IOC_IN.val,
          "IOC_OUT=".data ++ fmtUnsigned env.IOC_OUT.val,
          "IOC_INOUT=".data ++ fmtUnsigned env.IOC_INOUT.val,
          fmtSigned (query0 env stack os).1.val,
          fmtUnsigned (query0 env stack os).2.1.ws_row.val,
          fmtUnsigned (query0 env stack os).2.1.ws_col.val,
          fmtSigned (query1 env stack os).1.val,
          fmtUnsigned (query1 env stack os).2.1.ws_row.val,
          fmtUnsigned (query1 env stack os).2.1.ws_col.val,
          "sizeof winsize: ".data ++ fmtUnsigned env.sizeof_winsize.val ] : List (List Char)), '\n' ∉ l := by
  have hs := newline_not_mem_fmtSigned
  have hu := newline_not_mem_fmtUnsigned
  intro l hl
  simp only [List.mem_cons, List.mem_singleton, List.not_mem_nil, or_false] at hl
  rcases hl with h | h | h | h | h | h | h | h | h | h | h | h | h | h | h | h | h | h | h | h | h <;>
    subst h <;> simp only [List.mem_append, not_or, hs, hu, not_false_eq_true, and_true] <;> decide

/-- A run always completes with status 0, and the segments of its output
between newlines are the twenty-one listed. -/
theorem run_lines {σ : Type} (env : Env σ) (argc : Int) (argv : List String)
    (stack : Winsize) (os : σ) :
    ∃ p, run env argc argv stack os = some (0, p) ∧
      p.winsize = (query1 env stack os).2.1 ∧
      p.os = (query1 env stack os).2.2 ∧
      p.requests = [(0, env.TIOCGWINSZ), (1, env.TIOCGWINSZ)] ∧
      p.stdout.data = joinLines [ "ISIG=".data ++ fmtSigned env.ISIG.val,
          "ICANON=".data ++ fmtSigned env.ICANON.val,
          "ECHO=".data ++ fmtSigned env.ECHO.val,
          "TCSAFLUSH=".data ++ fmtSigned env.TCSAFLUSH.val,
          "IXON=".data ++ fmtSigned env.IXON.val,
          "ICRNL=".data ++ fmtSigned env.ICRNL.val,
          "IEXTEN=".data ++ fmtSigned env.IEXTEN.val,
          "OPOST=".data ++ fmtSigned env.OPOST.val,
          "VMIN=".data ++ fmtSigned env.VMIN.val,
          "VTIME=".data ++ fmtSigned env.VTIME.val,
          "TIOCGWINSZ=".data ++ fmtUnsigned env.TIOCGWINSZ.val,
          "IOC_IN=".data ++ fmtUnsigned env.IOC_IN.val,
          "IOC_OUT=".data ++ fmtUnsigned env.IOC_OUT.val,
          "IOC_INOUT=".data ++ fmtUnsigned env.IOC_INOUT.val,
          fmtSigned (query0 env stack os).1.val,
          fmtUnsigned (query0 env stack os).2.1.ws_row.val,
          fmtUnsigned (query0 env stack os).2.1.ws_col.val,
          fmtSigned (query1 env stack os).1.val,
          fmtUnsigned (query1 env stack os).2.1.ws_row.val,
          fmtUnsigned (query1 env stack os).2.1.ws_col.val,
          "sizeof winsize: ".data ++ fmtUnsigned env.sizeof_winsize.val ] ∧
      splitLines p.stdout.data = [ "ISIG=".data ++ fmtSigned env.ISIG.val,
          "ICANON=".data ++ fmtSigned env.ICANON.val,
          "ECHO=".data ++ fmtSigned env.ECHO.val,
          "TCSAFLUSH=".data ++ fmtSigned env.TCSAFLUSH.val,
          "IXON=".data ++ fmtSigned env.IXON.val,
          "ICRNL=".data ++ fmtSigned env.ICRNL.val,
          "IEXTEN=".data ++ fmtSigned env.IEXTEN.val,
          "OPOST=".data ++ fmtSigned env.OPOST.val,
          "VMIN=".data ++ fmtSigned env.VMIN.val,
          "VTIME=".data ++ fmtSigned env.VTIME.val,
          "TIOCGWINSZ=".data ++ fmtUnsigned env.TIOCGWINSZ.val,
          "IOC_IN=".data ++ fmtUnsigned env.IOC_IN.val,
          "IOC_OUT=".data ++ fmtUnsigned env.IOC_OUT.val,
          "IOC_INOUT=".data ++ fmtUnsigned env.IOC_INOUT.val,
          fmtSigned (query0 env stack os).1.val,
          fmtUnsigned (query0 env stack os).2.1.ws_row.val,
          fmtUnsigned (query0 env stack os).2.1.ws_col.val,
          fmtSigned (query1 env stack os).1.val,
          fmtUnsigned (query1 env stack os).2.1.ws_row.val,
          fmtUnsigned (query1 env stack os).2.1.ws_col.val,
          "sizeof winsize: ".data ++ fmtUnsigned env.sizeof_winsize.val ] ∧
      p.stdout.data.count '\n' = 20 := by
  refine ⟨_, run_eq env argc argv stack os, rfl, rfl, rfl, rfl, ?_, ?_⟩
  · exact splitLines_joinLines _ (by simp) (report_no_newline env stack os)
  · exact count_newline_joinLines _ (by simp) (report_no_newline env stack os)

/-- The lines of the text a run writes, as strings. -/
theorem run_report {σ : Type} (env : Env σ) (argc : Int) (argv : List String)
    (stack : Winsize) (os : σ) :
    ∃ p, run env argc argv stack os = some (0, p) ∧
      p.winsize = (query1 env stack os).2.1 ∧
      p.os = (query1 env stack os).2.2 ∧
      p.requests = [(0, env.TIOCGWINSZ), (1, env.TIOCGWINSZ)] ∧
      p.stdout.data.count '\n' = 20 ∧
      lines p.stdout =
        [ "ISIG=" ++ toString env.ISIG.val,
          "ICANON=" ++ toString env.ICANON.val,
          "ECHO=" ++ toString env.ECHO.val,
          "TCSAFLUSH=" ++ toString env.TCSAFLUSH.val,
          "IXON=" ++ toString env.IXON.val,
          "ICRNL=" ++ toString env.ICRNL.val,
          "IEXTEN=" ++ toString env.IEXTEN.val,
          "OPOST=" ++ toString env.OPOST.val,
          "VMIN=" ++ toString env.VMIN.val,
          "VTIME=" ++ toString env.VTIME.val,
          "TIOCGWINSZ=" ++ toString env.TIOCGWINSZ.val,
          "IOC_IN=" ++ toString env.IOC_IN.val,
          "IOC_OUT=" ++ toString env.IOC_OUT.val,
          "IOC_INOUT=" ++ toString env.IOC_INOUT.val,
          toString (query0 env stack os).1.val,
          toString (query0 env stack os).2.1.ws_row.val,
          toString (query0 env stack os).2.1.ws_col.val,
          toString (query1 env stack os).1.val,
          toString (query1 env stack os).2.1.ws_row.val,
          toString (query1 env stack os).2.1.ws_col.val,
          "sizeof winsize: " ++ toString env.sizeof_winsize.val ] := by
  obtain ⟨p, hrun, hw, hos, hreq, _, hsplit, hcount⟩ := run_lines env argc argv stack os
  refine ⟨p, hrun, hw, hos, hreq, hcount, ?_⟩
  simp only [lines, hsplit, List.map, ← mk_fmtSigned, ← mk_fmtUnsigned]
  rfl

/-- The sample operating system answers every call without changing state. -/
theorem Streams.ioctl_state (s : Streams) (fd : Int) (request : CULong) (buf : Winsize) :
    (Streams.ioctl s fd request buf).2.2 = s := by
  unfold Streams.ioctl
  split <;> rfl

/-! ## The claims -/

/-- C1: for every environment, the text `main` writes to standard output is
exactly the fourteen `NAME=value` lines in source order, each value in
decimal and followed by a newline, then six newline-terminated decimal lines
(result of the query on the input stream, rows, columns, result of the query
on the output stream, rows, columns), then `sizeof winsize: ` and the decimal
structure size with nothing after it; the text holds twenty newline
characters. -/
theorem C1_stdout_text {σ : Type} (env : Env σ) (argc : Int) (argv : List String)
    (stack : Winsize) (os : σ) :
    ∃ p, run env argc argv stack os = some (0, p) ∧
      p.stdout =
        "ISIG=" ++ toString env.ISIG.val ++ "\n" ++
        "ICANON=" ++ toString env.ICANON.val ++ "\n" ++
        "ECHO=" ++ toString env.ECHO.val ++ "\n" ++
        "TCSAFLUSH=" ++ toString env.TCSAFLUSH.val ++ "\n" ++
        "IXON=" ++ toString env.IXON.val ++ "\n" ++
        "ICRNL=" ++ toString env.ICRNL.val ++ "\n" ++
        "IEXTEN=" ++ toString env.IEXTEN.val ++ "\n" ++
        "OPOST=" ++ toString env.OPOST.val ++ "\n" ++
        "VMIN=" ++ toString env.VMIN.val ++ "\n" ++
        "VTIME=" ++ toString env.VTIME.val ++ "\n" ++
        "TIOCGWINSZ=" ++ toString env.TIOCGWINSZ.val ++ "\n" ++
        "IOC_IN=" ++ toString env.IOC_IN.val ++ "\n" ++
        "IOC_OUT=" ++ toString env.IOC_OUT.val ++ "\n" ++
        "IOC_INOUT=" ++ toString env.IOC_INOUT.val ++ "\n" ++
        toString (query0 env stack os).1.val ++ "\n" ++
        toString (query0 env stack os).2.1.ws_row.val ++ "\n" ++
        toString (query0 env stack os).2.1.ws_col.val ++ "\n" ++
        toString (query1 env stack os).1.val ++ "\n" ++
        toString (query1 env stack os).2.1.ws_row.val ++ "\n" ++
        toString (query1 env stack os).2.1.ws_col.val ++ "\n" ++
        "sizeof winsize: " ++ toString env.sizeof_winsize.val ∧
      p.stdout.data.count '\n' = 20 := by
  obtain ⟨p, hrun, _, _, _, hdata, _, hcount⟩ := run_lines env argc argv stack os
  refine ⟨p, hrun, ?_, hcount⟩
  apply String.ext
  rw [hdata]
  simp only [joinLines, String.data_append, List.append_assoc, ← mk_fmtSigned,
    ← mk_fmtUnsigned]
  rfl

/-- C2: when the queries on file descriptors 0 and 1 both succeed and both
fill the structure with `R` rows and `C` columns, `R` and `C` in 0..65535,
lines 15 and 18 are non-negative decimal integers (the two result codes),
lines 16 and 19 are the decimal text of `R` and lines 17 and 20 the decimal
text of `C`. -/
theorem C2_terminal_size_lines {σ : Type} (env : Env σ) (argc : Int) (argv : List String)
    (stack : Winsize) (os : σ) (R C : Nat) (_hR : R ≤ 65535) (_hC : C ≤ 65535)
    (h0 : 0 ≤ (query0 env stack os).1.val)
    (h0r : (query0 env stack os).2.1.ws_row.val = R)
    (h0c : (query0 env stack os).2.1.ws_col.val = C)
    (h1 : 0 ≤ (query1 env stack os).1.val)
    (h1r : (query1 env stack os).2.1.ws_row.val = R)
    (h1c : (query1 env stack os).2.1.ws_col.val = C) :
    ∃ p, run env argc argv stack os = some (0, p) ∧
      (∃ n : Nat, (n : Int) = (query0 env stack os).1.val ∧
        line 15 p.stdout = some (toString n)) ∧
      line 16 p.stdout = some (toString R) ∧
      line 17 p.stdout = some (toString C) ∧
      (∃ n : Nat, (n : Int) = (query1 env stack os).1.val ∧
        line 18 p.stdout = some (toString n)) ∧
      line 19 p.stdout = some (toString R) ∧
      line 20 p.stdout = some (toString C) := by
  obtain ⟨p, hrun, _, _, _, _, hl⟩ := run_report env argc argv stack os
  have e0 : ((query0 env stack os).1.val.toNat : Int) = (query0 env stack os).1.val :=
    Int.toNat_of_nonneg h0
  have e1 : ((query1 env stack os).1.val.toNat : Int) = (query1 env stack os).1.val :=
    Int.toNat_of_nonneg h1
  refine ⟨p, hrun, ⟨_, e0, ?_⟩, ?_, ?_, ⟨_, e1, ?_⟩, ?_, ?_⟩
  · rw [line, hl, ← e0]; rfl
  · rw [line, hl, ← h0r]; rfl
  · rw [line, hl, ← h0c]; rfl
  · rw [line, hl, ← e1]; rfl
  · rw [line, hl, ← h1r]; rfl
  · rw [line, hl, ← h1c]; rfl

/-- Witness of C2: both streams on a 24 x 80 terminal, the stack slot holding
residue. -/
theorem C2_terminal_size_lines_witness :
    0 ≤ (query0 linux wsResidue bothTty).1.val ∧
    0 ≤ (query1 linux wsResidue bothTty).1.val ∧
    ∃ p, run linux 1 ["constants"] wsResidue bothTty = some (0, p) ∧
      line 15 p.stdout = some "0" ∧ line 16 p.stdout = some "24" ∧
      line 17 p.stdout = some "80" ∧ line 18 p.stdout = some "0" ∧
      line 19 p.stdout = some "24" ∧ line 20 p.stdout = some "80" := by
  obtain ⟨p, hrun, ⟨n, hn, h15⟩, h16, h17, ⟨m, hm, h18⟩, h19, h20⟩ :=
    C2_terminal_size_lines linux 1 ["constants"] wsResidue bothTty 24 80
      (by decide) (by decide) (by decide) rfl rfl (by decide) rfl rfl
  have en : n = 0 := Int.ofNat.inj hn
  have em : m = 0 := Int.ofNat.inj hm
  subst en
  subst em
  exact ⟨by decide, by decide, p, hrun, h15, h16, h17, h18, h19, h20⟩

/-- C3: `main` never branches on a query result. Whatever the two result codes
are, negative or not, the output has twenty-one segments, each result code is
printed verbatim on its own line (15 and 18) and is followed by a row line
and a column line; a negative code is printed as a minus sign and its
magnitude; and with any other behaviour of the queries the number of lines is
the same and the labelled lines (1 to 14 and 21) are the same. -/
theorem C3_no_branch_on_result {σ : Type} (env : Env σ) (argc : Int) (argv : List String)
    (stack : Winsize) (os : σ) :
    ∃ p, run env argc argv stack os = some (0, p) ∧
      (lines p.stdout).length = 21 ∧
      line 15 p.stdout = some (toString (query0 env stack os).1.val) ∧
      line 16 p.stdout = some (toString (query0 env stack os).2.1.ws_row.val) ∧
      line 17 p.stdout = some (toString (query0 env stack os).2.1.ws_col.val) ∧
      line 18 p.stdout = some (toString (query1 env stack os).1.val) ∧
      line 19 p.stdout = some (toString (query1 env stack os).2.1.ws_row.val) ∧
      line 20 p.stdout = some (toString (query1 env stack os).2.1.ws_col.val) ∧
      ((query0 env stack os).1.val < 0 →
        line 15 p.stdout = some ("-" ++ toString (query0 env stack os).1.val.natAbs)) ∧
      ((query1 env stack os).1.val < 0 →
        line 18 p.stdout = some ("-" ++ toString (query1 env stack os).1.val.natAbs)) ∧
      ∀ (f : σ → Int → CULong → Winsize → CInt × Winsize × σ) (stack' : Winsize) (os' : σ),
        ∃ p', run { env with ioctl := f } argc argv stack' os' = some (0, p') ∧
          (lines p'.stdout).length = 21 ∧
          ∀ k, k ≤ 14 ∨ k = 21 → line k p'.stdout = line k p.stdout := by
  obtain ⟨p, hrun, _, _, _, _, hl⟩ := run_report env argc argv stack os
  have hneg : ∀ v : Int, v < 0 → toString v = "-" ++ toString v.natAbs := by
    intro v hv
    cases v with
    | ofNat n => exact absurd hv (by simp)
    | negSucc n => rfl
  refine ⟨p, hrun, ?_, ?_, ?_, ?_, ?_, ?_, ?_, ?_, ?_, ?_⟩
  · rw [hl]; rfl
  · rw [line, hl]; rfl
  · rw [line, hl]; rfl
  · rw [line, hl]; rfl
  · rw [line, hl]; rfl
  · rw [line, hl]; rfl
  · rw [line, hl]; rfl
  · intro h; rw [line, hl, ← hneg _ h]; rfl
  · intro h; rw [line, hl, ← hneg _ h]; rfl
  · intro f stack' os'
    obtain ⟨p', hrun', _, _, _, _, hl'⟩ :=
      run_report { env with ioctl := f } argc argv stack' os'
    refine ⟨p', hrun', ?_, ?_⟩
    · rw [hl']; rfl
    · intro k hk
      rw [line, line, hl, hl']
      rcases hk with hk | hk
      · interval_cases k <;> rfl
      · subst hk; rfl

/-- Witness of C3: both streams redirected, so both queries return -1. -/
theorem C3_no_branch_on_result_witness :
    (query0 linux wsResidue noTty).1.val < 0 ∧
    (query1 linux wsResidue noTty).1.val < 0 ∧
    ∃ p, run linux 1 ["constants"] wsResidue noTty = some (0, p) ∧
      (lines p.stdout).length = 21 ∧
      line 15 p.stdout = some "-1" ∧ line 18 p.stdout = some "-1" := by
  obtain ⟨p, hrun, hlen, _, _, _, _, _, _, h15, h18, _⟩ :=
    C3_no_branch_on_result linux 1 ["constants"] wsResidue noTty
  exact ⟨by decide, by decide, p, hrun, hlen, h15 (by decide), h18 (by decide)⟩

/-- C4, as amended: when the first query fails and leaves the structure
unchanged, the row line and the column line printed after the first result
code are the decimal values of the rows and columns found in the stack slot
of the uninitialised variable `winsize`, whatever they are. -/
theorem C4_failed_query_prints_stack {σ : Type} (env : Env σ) (argc : Int)
    (argv : List String) (stack : Winsize) (os : σ)
    (_hfail : (query0 env stack os).1.val < 0)
    (hkeep : (query0 env stack os).2.1 = stack) :
    ∃ p, run env argc argv stack os = some (0, p) ∧
      line 16 p.stdout = some (toString stack.ws_row.val) ∧
      line 17 p.stdout = some (toString stack.ws_col.val) := by
  obtain ⟨p, hrun, _, _, _, _, hl⟩ := run_report env argc argv stack os
  refine ⟨p, hrun, ?_, ?_⟩
  · rw [line, hl, hkeep]; rfl
  · rw [line, hl, hkeep]; rfl

/-- Witness of the amended C4: the input stream is not a terminal and the
stack slot holds 7 and 9. -/
theorem C4_failed_query_prints_stack_witness :
    (query0 linux wsResidue noTty).1.val < 0 ∧
    (query0 linux wsResidue noTty).2.1 = wsResidue ∧
    ∃ p, run linux 1 ["constants"] wsResidue noTty = some (0, p) ∧
      line 16 p.stdout = some "7" ∧ line 17 p.stdout = some "9" :=
  ⟨by decide, rfl,
    C4_failed_query_prints_stack linux 1 ["constants"] wsResidue noTty (by decide) rfl⟩

/-- Counterexample to C4 as stated: the first query fails and leaves the
structure unchanged, yet the row and column lines are 7 and 9, the residue of
the stack slot, and not 0 and 0. -/
theorem C4_zero_initialised_counterexample :
    (query0 linux wsResidue noTty).1.val < 0 ∧
    (query0 linux wsResidue noTty).2.1 = wsResidue ∧
    (run linux 1 ["constants"] wsResidue noTty).map
      (fun r => (line 16 r.2.stdout, line 17 r.2.stdout)) = some (some "7", some "9") ∧
    (run linux 1 ["constants"] wsResidue noTty).map
      (fun r => (line 16 r.2.stdout, line 17 r.2.stdout)) ≠ some (some "0", some "0") :=
  ⟨by decide, rfl, rfl, by decide⟩

/-- C5: for every environment and every outcome of the two queries, `main`
runs to completion and the exit status is 0; no run ends with another
status. -/
theorem C5_exit_status_zero {σ : Type} (env : Env σ) (argc : Int) (argv : List String)
    (stack : Winsize) (os : σ) :
    (∃ p, run env argc argv stack os = some (0, p)) ∧
      ∀ r, run env argc argv stack os = some r → r.1 = 0 := by
  obtain ⟨p, hrun, _⟩ := run_report env argc argv stack os
  refine ⟨⟨p, hrun⟩, ?_⟩
  intro r hr
  rw [hrun] at hr
  rw [← Option.some.inj hr]

/-- C6: the command line is ignored. Two runs that differ only in `argc` and
`argv` complete with the same exit status and the same final state, the text
on standard output included. -/
theorem C6_arguments_ignored {σ : Type} (env : Env σ) (argc argc' : Int)
    (argv argv' : List String) (stack : Winsize) (os : σ) :
    run env argc argv stack os = run env argc' argv' stack os ∧
      ∃ p, run env argc argv stack os = some (0, p) ∧
        run env argc' argv' stack os = some (0, p) := by
  obtain ⟨p, hrun, _⟩ := run_report env argc argv stack os
  exact ⟨rfl, p, hrun, hrun⟩

/-- C7: `main` is deterministic and leaves the environment as it found it.
A second run with the same constants and the same initial structure contents
whose two queries return the same result codes and structure contents writes
the same text, character for character; and when the window-size query is a
pure read of the terminal, the state of the terminal after the run is the
state before it, so that a run started right after the first one repeats it
exactly. -/
theorem C7_deterministic_no_mutation {σ : Type} (env : Env σ) (argc : Int)
    (argv : List String) (stack : Winsize) (os : σ) :
    ∃ p, run env argc argv stack os = some (0, p) ∧
      (∀ (f : σ → Int → CULong → Winsize → CInt × Winsize × σ) (os' : σ),
        (query0 { env with ioctl := f } stack os').1 = (query0 env stack os).1 →
        (query0 { env with ioctl := f } stack os').2.1 = (query0 env stack os).2.1 →
        (query1 { env with ioctl := f } stack os').1 = (query1 env stack os).1 →
        (query1 { env with ioctl := f } stack os').2.1 = (query1 env stack os).2.1 →
        ∃ p', run { env with ioctl := f } argc argv stack os' = some (0, p') ∧
          p'.stdout = p.stdout) ∧
      ((∀ s fd buf, (env.ioctl s fd env.TIOCGWINSZ buf).2.2 = s) →
        p.os = os ∧ run env argc argv stack p.os = some (0, p)) := by
  obtain ⟨p, hrun, _, hos, _, hdata, _⟩ := run_lines env argc argv stack os
  refine ⟨p, hrun, ?_, ?_⟩
  · intro f os' a0 b0 a1 b1
    obtain ⟨p', hrun', _, _, _, hdata', _⟩ :=
      run_lines { env with ioctl := f } argc argv stack os'
    refine ⟨p', hrun', ?_⟩
    apply String.ext
    rw [hdata', hdata, a0, b0, a1, b1]
  · intro hro
    have e : p.os = os := by
      rw [hos]
      unfold query1
      rw [hro]
      unfold query0
      rw [hro]
    refine ⟨e, ?_⟩
    rw [e]
    exact hrun

/-- Witness of C7: the sample operating system, whose queries are pure reads,
with both streams on one terminal. -/
theorem C7_deterministic_no_mutation_witness :
    (∀ s fd buf, (linux.ioctl s fd linux.TIOCGWINSZ buf).2.2 = s) ∧
    ∃ p, run linux 1 ["constants"] wsResidue bothTty = some (0, p) ∧
      p.os = bothTty ∧
      run linux 1 ["constants"] wsResidue p.os = some (0, p) ∧
      ∃ p', run { linux with ioctl := Streams.ioctl } 2 ["constants", "again"]
          wsResidue bothTty = some (0, p') ∧ p'.stdout = p.stdout := by
  have hro : ∀ s fd buf, (linux.ioctl s fd linux.TIOCGWINSZ buf).2.2 = s :=
    fun s fd buf => Streams.ioctl_state s fd _ buf
  obtain ⟨p, hrun, hdet, hkeep⟩ :=
    C7_deterministic_no_mutation linux 1 ["constants"] wsResidue bothTty
  obtain ⟨p', hrun', hout⟩ := hdet Streams.ioctl bothTty rfl rfl rfl rfl
  exact ⟨hro, p, hrun, (hkeep hro).1, (hkeep hro).2, p', hrun', hout⟩

/-- C8: the final line of the output is `sizeof winsize: N`, with `N` the byte
size of the window-size structure in decimal, whatever the queries return;
a structure of two unsigned 16-bit row and column fields and two reserved
unsigned 16-bit fields has size 8, and the line is then `sizeof winsize: 8`. -/
theorem C8_sizeof_line {σ : Type} (env : Env σ) (argc : Int) (argv : List String)
    (stack : Winsize) (os : σ) :
    ∃ p, run env argc argv stack os = some (0, p) ∧
      (lines p.stdout).length = 21 ∧
      line 21 p.stdout = some ("sizeof winsize: " ++ toString env.sizeof_winsize.val) ∧
      (∀ (f : σ → Int → CULong → Winsize → CInt × Winsize × σ) (stack' : Winsize) (os' : σ),
        ∃ p', run { env with ioctl := f } argc argv stack' os' = some (0, p') ∧
          line 21 p'.stdout = line 21 p.stdout) ∧
      structSize winsizeMembers = 8 ∧
      (env.sizeof_winsize.val = structSize winsizeMembers →
        line 21 p.stdout = some "sizeof winsize: 8") := by
  obtain ⟨p, hrun, _, _, _, _, hl⟩ := run_report env argc argv stack os
  have h21 : line 21 p.stdout = some ("sizeof winsize: " ++ toString env.sizeof_winsize.val) := by
    rw [line, hl]; rfl
  refine ⟨p, hrun, ?_, h21, ?_, rfl, ?_⟩
  · rw [hl]; rfl
  · intro f stack' os'
    obtain ⟨p', hrun', _, _, _, _, hl'⟩ :=
      run_report { env with ioctl := f } argc argv stack' os'
    refine ⟨p', hrun', ?_⟩
    rw [line, line, hl, hl']; rfl
  · intro h
    have h8 : structSize winsizeMembers = 8 := rfl
    rw [h21, h, h8]; rfl

/-- Witness of C8: the Linux structure, whose size is that of four 16-bit
members. -/
theorem C8_sizeof_line_witness :
    linux.sizeof_winsize.val = structSize winsizeMembers ∧
    ∃ p, run linux 1 ["constants"] wsResidue noTty = some (0, p) ∧
      line 21 p.stdout = some "sizeof winsize: 8" := by
  obtain ⟨p, hrun, _, _, _, _, h⟩ := C8_sizeof_line linux 1 ["constants"] wsResidue noTty
  exact ⟨rfl, p, hrun, h rfl⟩

/-- C9: the one structure is queried exactly twice, on file descriptor 0 and
then on file descriptor 1, and the rows and columns of the first query are
printed before the second query rewrites the structure. If the first query
leaves `R1` rows and `C1` columns in the structure, lines 16 and 17 are `R1`
and `C1`; if the second leaves `R2` and `C2`, lines 19 and 20 are `R2` and
`C2`, equal to the first pair or not; and if the second query fails and
leaves the structure unchanged, lines 19 and 20 repeat `R1` and `C1`. -/
theorem C9_two_queries_in_order {σ : Type} (env : Env σ) (argc : Int) (argv : List String)
    (stack : Winsize) (os : σ) (R1 C1 : Nat)
    (h0r : (query0 env stack os).2.1.ws_row.val = R1)
    (h0c : (query0 env stack os).2.1.ws_col.val = C1) :
    ∃ p, run env argc argv stack os = some (0, p) ∧
      p.requests = [(0, env.TIOCGWINSZ), (1, env.TIOCGWINSZ)] ∧
      line 16 p.stdout = some (toString R1) ∧
      line 17 p.stdout = some (toString C1) ∧
      (∀ R2 C2 : Nat, (query1 env stack os).2.1.ws_row.val = R2 →
        (query1 env stack os).2.1.ws_col.val = C2 →
        line 19 p.stdout = some (toString R2) ∧ line 20 p.stdout = some (toString C2)) ∧
      ((query1 env stack os).1.val < 0 →
        (query1 env stack os).2.1 = (query0 env stack os).2.1 →
        line 19 p.stdout = some (toString R1) ∧ line 20 p.stdout = some (toString C1)) := by
  obtain ⟨p, hrun, _, _, hreq, _, hl⟩ := run_report env argc argv stack os
  refine ⟨p, hrun, hreq, ?_, ?_, ?_, ?_⟩
  · rw [line, hl, ← h0r]; rfl
  · rw [line, hl, ← h0c]; rfl
  · intro R2 C2 h1r h1c
    constructor
    · rw [line, hl, ← h1r]; rfl
    · rw [line, hl, ← h1c]; rfl
  · intro _ hkeep
    constructor
    · rw [line, hl, ← h0r, ← hkeep]; rfl
    · rw [line, hl, ← h0c, ← hkeep]; rfl

/-- Witness of C9: standard input on a 24 x 80 terminal and standard output
on a 50 x 132 one; then standard output redirected, where the second query
fails and the first window is printed again. -/
theorem C9_two_queries_in_order_witness :
    (∃ p, run linux 1 ["constants"] wsResidue twoTty = some (0, p) ∧
      p.requests = [(0, linux.TIOCGWINSZ), (1, linux.TIOCGWINSZ)] ∧
      line 16 p.stdout = some "24" ∧ line 17 p.stdout = some "80" ∧
      line 19 p.stdout = some "50" ∧ line 20 p.stdout = some "132") ∧
    (query1 linux wsResidue inTty).1.val < 0 ∧
    ∃ p, run linux 1 ["constants"] wsResidue inTty = some (0, p) ∧
      line 16 p.stdout = some "24" ∧ line 17 p.stdout = some "80" ∧
      line 19 p.stdout = some "24" ∧ line 20 p.stdout = some "80" := by
  obtain ⟨p, hrun, hreq, h16, h17, h2, _⟩ :=
    C9_two_queries_in_order linux 1 ["constants"] wsResidue twoTty 24 80 rfl rfl
  obtain ⟨q, hrun', _, k16, k17, _, k2⟩ :=
    C9_two_queries_in_order linux 1 ["constants"] wsResidue inTty 24 80 rfl rfl
  exact ⟨⟨p, hrun, hreq, h16, h17, (h2 50 132 rfl rfl).1, (h2 50 132 rfl rfl).2⟩,
    by decide, q, hrun', k16, k17, (k2 (by decide) rfl).1, (k2 (by decide) rfl).2⟩

/-- C10: whatever the structure holds, after a successful query or a failed
one, each of the four row and column lines (16, 17, 19, 20) is the decimal
text of an integer in 0..65535, made of digits only, with no minus sign: the
unsigned 16-bit field is widened to `int` with its value kept before `%d`
formats it. Of the six query lines only the two result-code lines (15, 18)
can carry a minus sign, and they do exactly when the result code is
negative. -/
theorem C10_rows_cols_unsigned {σ : Type} (env : Env σ) (argc : Int) (argv : List String)
    (stack : Winsize) (os : σ) :
    ∃ p, run env argc argv stack os = some (0, p) ∧
      (∃ n : Nat, n ≤ 65535 ∧ line 16 p.stdout = some (toString n) ∧
        '-' ∉ (toString n).data ∧ ∀ c ∈ (toString n).data, c.isDigit = true) ∧
      (∃ n : Nat, n ≤ 65535 ∧ line 17 p.stdout = some (toString n) ∧
        '-' ∉ (toString n).data ∧ ∀ c ∈ (toString n).data, c.isDigit = true) ∧
      (∃ n : Nat, n ≤ 65535 ∧ line 19 p.stdout = some (toString n) ∧
        '-' ∉ (toString n).data ∧ ∀ c ∈ (toString n).data, c.isDigit = true) ∧
      (∃ n : Nat, n ≤ 65535 ∧ line 20 p.stdout = some (toString n) ∧
        '-' ∉ (toString n).data ∧ ∀ c ∈ (toString n).data, c.isDigit = true) ∧
      (∃ l, line 15 p.stdout = some l ∧
        ('-' ∈ l.data ↔ (query0 env stack os).1.val < 0)) ∧
      (∃ l, line 18 p.stdout = some l ∧
        ('-' ∈ l.data ↔ (query1 env stack os).1.val < 0)) ∧
      ∀ x : CUShort, 0 ≤ (promote x).val ∧ (promote x).val ≤ 65535 ∧
        (promote x).val = (x.val : Int) := by
  obtain ⟨p, hrun, _, _, _, _, hl⟩ := run_report env argc argv stack os
  have hu : ∀ x : CUShort, x.val ≤ 65535 := fun x => Nat.le_of_lt_succ x.property
  have hs : ∀ v : Int, ('-' ∈ (toString v).data ↔ v < 0) := by
    intro v
    rw [← mk_fmtSigned]
    exact minus_mem_fmtSigned_iff v
  have hf : ∀ (k : Nat) (x : CUShort), line k p.stdout = some (toString x.val) →
      ∃ n : Nat, n ≤ 65535 ∧ line k p.stdout = some (toString n) ∧
        '-' ∉ (toString n).data ∧ ∀ c ∈ (toString n).data, c.isDigit = true :=
    fun k x h => ⟨x.val, hu x, h, minus_not_mem_fmtUnsigned _, fmtUnsigned_isDigit _⟩
  refine ⟨p, hrun, hf 16 (query0 env stack os).2.1.ws_row ?_,
    hf 17 (query0 env stack os).2.1.ws_col ?_,
    hf 19 (query1 env stack os).2.1.ws_row ?_,
    hf 20 (query1 env stack os).2.1.ws_col ?_,
    ⟨toString (query0 env stack os).1.val, ?_, hs _⟩,
    ⟨toString (query1 env stack os).1.val, ?_, hs _⟩, ?_⟩
  · rw [line, hl]; rfl
  · rw [line, hl]; rfl
  · rw [line, hl]; rfl
  · rw [line, hl]; rfl
  · rw [line, hl]; rfl
  · rw [line, hl]; rfl
  · intro x
    have h := hu x
    refine ⟨?_, ?_, rfl⟩
    · show (0 : Int) ≤ (x.val : Int)
      omega
    · show (x.val : Int) ≤ 65535
      omega

/-- Witness of C10: with both streams redirected the two result-code lines
carry a minus sign and the row and column lines, printed from stack residue,
do not. -/
theorem C10_rows_cols_unsigned_witness :
    ∃ p, run linux 1 ["constants"] wsResidue noTty = some (0, p) ∧
      (∃ l, line 15 p.stdout = some l ∧ '-' ∈ l.data) ∧
      (∃ l, line 18 p.stdout = some l ∧ '-' ∈ l.data) ∧
      (∃ n : Nat, n ≤ 65535 ∧ line 16 p.stdout = some (toString n) ∧
        '-' ∉ (toString n).data) := by
  obtain ⟨p, hrun, ⟨n, hn, h16, hm, _⟩, _, _, _, ⟨l, h15, e15⟩, ⟨l', h18, e18⟩, _⟩ :=
    C10_rows_cols_unsigned linux 1 ["constants"] wsResidue noTty
  exact ⟨p, hrun, ⟨l, h15, e15.mpr (by decide)⟩, ⟨l', h18, e18.mpr (by decide)⟩,
    n, hn, h16, hm⟩

end Constants
